import Mathlib

/-!
Shallow embedding of the v1beta1 InferenceService reconciliation controller
(pkg/controller/v1beta1/inferenceservice/controller.go).

The controller core is embedded as pure Lean functions.  External
collaborators (the resource store client, the component reconcilers, the
ingress reconciler and configuration loading) are parameters collected in an
environment record: each run of the controller is a function of that
environment and of the current store state, returning the controller result,
the returned error (errors are modelled as their message strings), the list
of emitted notification events, the list of attempted status writes, the
list of invoked component reconcilers and the resulting store state.
-/

namespace KFServing

/-- Tri-state condition value, mirroring corev1.ConditionStatus
(True / False / Unknown). -/
inductive ConditionStatus
  | conditionTrue
  | conditionFalse
  | conditionUnknown
deriving DecidableEq

/-- One named status condition, mirroring the knative condition record used
by InferenceServiceStatus: a type name and a tri-state value. -/
structure Condition where
  condType : String
  status : ConditionStatus
deriving DecidableEq

/-- The distinguished Ready condition name, apis.ConditionReady. -/
def conditionReady : String := "Ready"

/-- Status of an InferenceService: the condition collection (none models a
nil Go slice, some models a non-nil slice) plus the remaining
component-specific status fields, kept as one value that only
participates in structural equality. -/
structure InferenceServiceStatus where
  conditions : Option (List Condition)
  componentState : String
deriving DecidableEq

/-- GetCondition of the knative status duck type: the first condition whose
type matches, none when the collection is nil or no condition matches. -/
def InferenceServiceStatus.getCondition (s : InferenceServiceStatus) (t : String) :
    Option Condition :=
  match s.conditions with
  | none => none
  | some cs => cs.find? (fun c => c.condType == t)

/-- Spec of an InferenceService as far as the controller inspects it: the
predictor parameters always exist; transformer and explainer are present
exactly when the corresponding pointer in the Go spec is non-nil. -/
structure InferenceServiceSpec where
  predictorParams : String
  transformer : Option String
  explainer : Option String
deriving DecidableEq

/-- The desired-state object: identity (name and namespace), spec and
status. -/
structure InferenceService where
  name : String
  nspace : String
  spec : InferenceServiceSpec
  status : InferenceServiceStatus
deriving DecidableEq

/-- inferenceServiceReadiness from controller.go: the condition collection is
non-nil, the Ready condition is present, and its value is ConditionTrue. -/
def inferenceServiceReadiness (status : InferenceServiceStatus) : Bool :=
  status.conditions.isSome &&
  (status.getCondition conditionReady).isSome &&
  (match status.getCondition conditionReady with
   | some c => c.status == ConditionStatus.conditionTrue
   | none => false)

/-- The three component reconciler kinds the controller can build. -/
inductive Component
  | predictor
  | transformer
  | explainer
deriving DecidableEq

/-- Store access failure: the not-found case distinguished by
apierr.IsNotFound, or any other error. -/
inductive StoreErr
  | notFound
  | other (msg : String)
deriving DecidableEq

/-- Rendering of a store error as an error message string. -/
def StoreErr.message : StoreErr → String
  | StoreErr.notFound => "not found"
  | StoreErr.other m => m

/-- errors.Wrapf: the wrapping message followed by the wrapped error. -/
def wrapf (e : String) (msg : String) : String := msg ++ ": " ++ e

/-- State of the resource store: the stored object, if any.  A single
reconciled key is modelled, so the store holds at most one object. -/
structure StoreState where
  obj : Option InferenceService
deriving DecidableEq

/-- Environment of one reconcile pass: injected transient failures of the
store and of configuration loading, and the behaviour of the external
component and ingress reconcilers.  A reconciler receives the object and
either fails with an error or returns the object with its status
mutated in place. -/
structure Env where
  fetchErr : Option String
  servicesCfgErr : Option String
  comp : Component → InferenceService → Except String InferenceService
  ingressCfgErr : Option String
  ingress : InferenceService → Except String InferenceService
  refetchErr : Option String
  writeErr : Option String

/-- A Get against the store: an injected transient error takes effect first;
otherwise the stored object is returned, or not-found when absent. -/
def storeGet (inj : Option String) (st : StoreState) : Except StoreErr InferenceService :=
  match inj with
  | some e => Except.error (StoreErr.other e)
  | none =>
    match st.obj with
    | some o => Except.ok o
    | none => Except.error StoreErr.notFound

/-- Severity of an emitted notification event, mirroring
corev1.EventTypeWarning and corev1.EventTypeNormal. -/
inductive EventType
  | warning
  | normal
deriving DecidableEq

/-- One notification event as emitted through Recorder.Eventf: severity,
reason code, name of the involved object and rendered message. -/
structure EventRec where
  eventType : EventType
  reason : String
  objName : String
  message : String
deriving DecidableEq

/-- Modelled from the spec: the v1alpha2 ready-state reason code used by the
readiness-transition notification.  The defining package is outside the
sources in scope; only its use as a reason code matters here. -/
def inferenceServiceReadyState : String := "InferenceServiceReady"

/-- Modelled from the spec: the v1alpha2 not-ready-state reason code used by
the readiness-transition notification.  The defining package is outside
the sources in scope; only its use as a reason code matters here. -/
def inferenceServiceNotReadyState : String := "InferenceServiceNotReady"

/-- The normal-level now-ready notification for an object name. -/
def readyEvent (n : String) : EventRec :=
  { eventType := EventType.normal
    reason := inferenceServiceReadyState
    objName := n
    message := "InferenceService [" ++ n ++ "] is Ready" }

/-- The warning-level no-longer-ready notification for an object name. -/
def notReadyEvent (n : String) : EventRec :=
  { eventType := EventType.warning
    reason := inferenceServiceNotReadyState
    objName := n
    message := "InferenceService [" ++ n ++ "] is no longer Ready" }

/-- The warning notification emitted when the status write fails, citing the
object name and the underlying cause. -/
def updateFailedEvent (n : String) (e : String) : EventRec :=
  { eventType := EventType.warning
    reason := "UpdateFailed"
    objName := n
    message := "Failed to update status for InferenceService \"" ++ n ++ "\": " ++ e }

/-- The warning notification emitted on a component or status-commit
failure. -/
def internalErrorEvent (n : String) (e : String) : EventRec :=
  { eventType := EventType.warning
    reason := "InternalError"
    objName := n
    message := e }

/-- Outcome of updateStatus: the returned error, the emitted events, the
attempted status writes and the resulting store state. -/
structure UpdateOut where
  err : Option String
  events : List EventRec
  writes : List InferenceService
  store : StoreState
deriving DecidableEq

/-- updateStatus from controller.go: re-fetch the object; on fetch failure
return the error unchanged; when the existing and desired statuses are
deeply equal skip the write; otherwise attempt the status write, on
failure emitting an UpdateFailed warning and returning the wrapped
error, and on success emitting a readiness-transition notification when
the readiness boolean flipped. -/
def updateStatus (env : Env) (st : StoreState) (desiredService : InferenceService) :
    UpdateOut :=
  match storeGet env.refetchErr st with
  | Except.error se =>
    { err := some se.message, events := [], writes := [], store := st }
  | Except.ok existingService =>
    if existingService.status = desiredService.status then
      { err := none, events := [], writes := [], store := st }
    else
      match env.writeErr with
      | some e =>
        { err := some (wrapf e "fails to update InferenceService status")
          events := [updateFailedEvent desiredService.name e]
          writes := [desiredService]
          store := st }
      | none =>
        { err := none
          events :=
            if inferenceServiceReadiness existingService.status &&
                !(inferenceServiceReadiness desiredService.status) then
              [notReadyEvent desiredService.name]
            else if !(inferenceServiceReadiness existingService.status) &&
                inferenceServiceReadiness desiredService.status then
              [readyEvent desiredService.name]
            else []
          writes := [desiredService]
          store := { obj := some { existingService with status := desiredService.status } } }

/-- The ordered component reconciler list built by Reconcile: the predictor
always, then the transformer when requested, then the explainer when
requested. -/
def buildReconcilers (isvc : InferenceService) : List Component :=
  let rs0 := [Component.predictor]
  let rs1 := if isvc.spec.transformer.isSome then rs0 ++ [Component.transformer] else rs0
  if isvc.spec.explainer.isSome then rs1 ++ [Component.explainer] else rs1

/-- The dispatch loop over the component reconciler list: each reconciler is
invoked on the current object; on the first failure the loop stops,
reporting the failing component and its error; on success the mutated
object is threaded to the next reconciler.  The first projection is the
ordered list of invoked components. -/
def runComponents (env : Env) (l : List Component) (isvc : InferenceService) :
    List Component × Except (Component × String) InferenceService :=
  match l with
  | [] => ([], Except.ok isvc)
  | c :: rest =>
    match env.comp c isvc with
    | Except.error e => ([c], Except.error (c, e))
    | Except.ok isvc2 =>
      ((c :: (runComponents env rest isvc2).1), (runComponents env rest isvc2).2)

/-- ctrl.Result: the requeue request returned to the dispatcher. -/
structure CtrlResult where
  requeue : Bool
  requeueAfter : Nat
deriving DecidableEq

/-- The zero ctrl.Result value: no requeue requested. -/
def emptyResult : CtrlResult := { requeue := false, requeueAfter := 0 }

/-- Full outcome of one Reconcile pass. -/
structure ReconcileOutput where
  result : CtrlResult
  err : Option String
  events : List EventRec
  writes : List InferenceService
  invoked : List Component
  ingressInvoked : Bool
  store : StoreState
deriving DecidableEq

/-- Reconcile from controller.go: fetch the object (not-found is a
successful no-op, other fetch errors are returned unmodified); load the
services configuration; build the component reconciler list and run it,
on the first failure emitting an InternalError warning and returning the
wrapped error; load the ingress configuration and run the ingress
reconciler, on failure returning the wrapped error; finally run
updateStatus, on failure emitting an InternalError warning and returning
its error. -/
def Reconcile (env : Env) (st : StoreState) : ReconcileOutput :=
  match storeGet env.fetchErr st with
  | Except.error StoreErr.notFound =>
    { result := emptyResult, err := none, events := [], writes := [],
      invoked := [], ingressInvoked := false, store := st }
  | Except.error (StoreErr.other e) =>
    { result := emptyResult, err := some e, events := [], writes := [],
      invoked := [], ingressInvoked := false, store := st }
  | Except.ok isvc =>
    match env.servicesCfgErr with
    | some e =>
      { result := emptyResult, err := some (wrapf e "fails to create InferenceServicesConfig"),
        events := [], writes := [], invoked := [], ingressInvoked := false, store := st }
    | none =>
      match (runComponents env (buildReconcilers isvc) isvc).2 with
      | Except.error ce =>
        { result := emptyResult
          err := some (wrapf ce.2 "fails to reconcile component")
          events := [internalErrorEvent isvc.name ce.2]
          writes := []
          invoked := (runComponents env (buildReconcilers isvc) isvc).1
          ingressInvoked := false
          store := st }
      | Except.ok isvc2 =>
        match env.ingressCfgErr with
        | some e =>
          { result := emptyResult
            err := some (wrapf e "fails to create IngressConfig")
            events := []
            writes := []
            invoked := (runComponents env (buildReconcilers isvc) isvc).1
            ingressInvoked := false
            store := st }
        | none =>
          match env.ingress isvc2 with
          | Except.error e =>
            { result := emptyResult
              err := some (wrapf e "fails to reconcile ingress")
              events := []
              writes := []
              invoked := (runComponents env (buildReconcilers isvc) isvc).1
              ingressInvoked := true
              store := st }
          | Except.ok isvc3 =>
            match (updateStatus env st isvc3).err with
            | some e =>
              { result := emptyResult
                err := some e
                events := (updateStatus env st isvc3).events ++ [internalErrorEvent isvc3.name e]
                writes := (updateStatus env st isvc3).writes
                invoked := (runComponents env (buildReconcilers isvc) isvc).1
                ingressInvoked := true
                store := (updateStatus env st isvc3).store }
            | none =>
              { result := emptyResult
                err := none
                events := (updateStatus env st isvc3).events
                writes := (updateStatus env st isvc3).writes
                invoked := (runComponents env (buildReconcilers isvc) isvc).1
                ingressInvoked := true
                store := (updateStatus env st isvc3).store }

/-! Helper lemmas -/

lemma storeGet_ok (inj : Option String) (st : StoreState) (o : InferenceService)
    (h1 : inj = none) (h2 : st.obj = some o) : storeGet inj st = Except.ok o := by
  simp [storeGet, h1, h2]

lemma runComponents_invoked_take (env : Env) :
    ∀ (l : List Component) (o : InferenceService),
      ∃ t, (runComponents env l o).1 ++ t = l := by
  intro l
  induction l with
  | nil => intro o; exact ⟨[], rfl⟩
  | cons c rest ih =>
    intro o
    cases h : env.comp c o with
    | error e => exact ⟨rest, by simp [runComponents, h]⟩
    | ok o2 =>
      obtain ⟨t, ht⟩ := ih o2
      exact ⟨t, by simp [runComponents, h, ht]⟩

lemma runComponents_all_ok (env : Env)
    (hok : ∀ c o, ∃ r, env.comp c o = Except.ok r) :
    ∀ (l : List Component) (o : InferenceService),
      (runComponents env l o).1 = l ∧ ∃ r, (runComponents env l o).2 = Except.ok r := by
  intro l
  induction l with
  | nil => intro o; exact ⟨rfl, o, rfl⟩
  | cons c rest ih =>
    intro o
    obtain ⟨r, hr⟩ := hok c o
    obtain ⟨h1, r2, h2⟩ := ih r
    exact ⟨by simp [runComponents, hr, h1], r2, by simp [runComponents, hr, h2]⟩

lemma runComponents_error_last (env : Env) :
    ∀ (l : List Component) (o : InferenceService) (c : Component) (e : String),
      (runComponents env l o).2 = Except.error (c, e) →
      ∃ pre, (runComponents env l o).1 = pre ++ [c] := by
  intro l
  induction l with
  | nil => intro o c e h; simp [runComponents] at h
  | cons c0 rest ih =>
    intro o c e h
    cases hc : env.comp c0 o with
    | error e0 =>
      simp [runComponents, hc] at h ⊢
      exact ⟨[], by simp [h.1]⟩
    | ok o2 =>
      simp [runComponents, hc] at h ⊢
      obtain ⟨pre, hp⟩ := ih o2 c e h
      exact ⟨c0 :: pre, by simp [hp]⟩

lemma buildReconcilers_shape (isvc : InferenceService) :
    buildReconcilers isvc =
      [Component.predictor]
      ++ (if isvc.spec.transformer.isSome then [Component.transformer] else [])
      ++ (if isvc.spec.explainer.isSome then [Component.explainer] else []) := by
  unfold buildReconcilers
  by_cases ht : isvc.spec.transformer.isSome <;>
    by_cases he : isvc.spec.explainer.isSome <;> simp [ht, he]

lemma buildReconcilers_cons (isvc : InferenceService) :
    ∃ rest, buildReconcilers isvc = Component.predictor :: rest := by
  refine ⟨_, buildReconcilers_shape isvc⟩

lemma buildReconcilers_congr (a b : InferenceService) (h : a.spec = b.spec) :
    buildReconcilers a = buildReconcilers b := by
  unfold buildReconcilers
  rw [h]

lemma runComponents_congr (env : Env)
    (hdet : ∀ c a b, a.spec = b.spec → a.name = b.name → a.nspace = b.nspace →
      env.comp c a = env.comp c b)
    (c : Component) (rest : List Component) (a b : InferenceService)
    (hs : a.spec = b.spec) (hn : a.name = b.name) (hns : a.nspace = b.nspace) :
    runComponents env (c :: rest) a = runComponents env (c :: rest) b := by
  simp only [runComponents]
  rw [hdet c a b hs hn hns]

lemma reconcile_comp_fail_eq (env : Env) (st : StoreState) (isvc : InferenceService)
    (inv : List Component) (c : Component) (e : String)
    (hfetch : env.fetchErr = none) (hobj : st.obj = some isvc)
    (hcfg : env.servicesCfgErr = none)
    (hrun : runComponents env (buildReconcilers isvc) isvc = (inv, Except.error (c, e))) :
    Reconcile env st =
      { result := emptyResult
        err := some (wrapf e "fails to reconcile component")
        events := [internalErrorEvent isvc.name e]
        writes := []
        invoked := inv
        ingressInvoked := false
        store := st } := by
  have h1 : storeGet env.fetchErr st = Except.ok isvc := storeGet_ok _ _ _ hfetch hobj
  simp only [Reconcile, h1, hcfg, hrun]

lemma reconcile_ingress_fail_eq (env : Env) (st : StoreState) (isvc : InferenceService)
    (inv : List Component) (d1 : InferenceService) (e : String)
    (hfetch : env.fetchErr = none) (hobj : st.obj = some isvc)
    (hcfg : env.servicesCfgErr = none)
    (hrun : runComponents env (buildReconcilers isvc) isvc = (inv, Except.ok d1))
    (hicfg : env.ingressCfgErr = none)
    (hing : env.ingress d1 = Except.error e) :
    Reconcile env st =
      { result := emptyResult
        err := some (wrapf e "fails to reconcile ingress")
        events := []
        writes := []
        invoked := inv
        ingressInvoked := true
        store := st } := by
  have h1 : storeGet env.fetchErr st = Except.ok isvc := storeGet_ok _ _ _ hfetch hobj
  simp only [Reconcile, h1, hcfg, hrun, hicfg, hing]

lemma reconcile_success_core (env : Env) (st : StoreState)
    (isvc d1 d2 : InferenceService) (inv : List Component)
    (hfetch : env.fetchErr = none) (hobj : st.obj = some isvc)
    (hcfg : env.servicesCfgErr = none) (hicfg : env.ingressCfgErr = none)
    (hrun : runComponents env (buildReconcilers isvc) isvc = (inv, Except.ok d1))
    (hing : env.ingress d1 = Except.ok d2) :
    (Reconcile env st).err = (updateStatus env st d2).err
    ∧ (Reconcile env st).writes = (updateStatus env st d2).writes
    ∧ (Reconcile env st).store = (updateStatus env st d2).store
    ∧ (Reconcile env st).invoked = inv := by
  have h1 : storeGet env.fetchErr st = Except.ok isvc := storeGet_ok _ _ _ hfetch hobj
  simp only [Reconcile, h1, hcfg, hrun, hicfg, hing]
  cases h2 : (updateStatus env st d2).err <;> simp [h2]

lemma updateStatus_skip_eq (env : Env) (st : StoreState) (existing desired : InferenceService)
    (h1 : env.refetchErr = none) (h2 : st.obj = some existing)
    (heq : existing.status = desired.status) :
    updateStatus env st desired = { err := none, events := [], writes := [], store := st } := by
  have hg : storeGet env.refetchErr st = Except.ok existing := storeGet_ok _ _ _ h1 h2
  simp only [updateStatus, hg, if_pos heq]

lemma updateStatus_write_ok_eq (env : Env) (st : StoreState) (existing desired : InferenceService)
    (h1 : env.refetchErr = none) (h2 : st.obj = some existing)
    (hne : ¬ existing.status = desired.status) (hw : env.writeErr = none) :
    updateStatus env st desired =
      { err := none
        events :=
          if inferenceServiceReadiness existing.status &&
              !(inferenceServiceReadiness desired.status) then
            [notReadyEvent desired.name]
          else if !(inferenceServiceReadiness existing.status) &&
              inferenceServiceReadiness desired.status then
            [readyEvent desired.name]
          else []
        writes := [desired]
        store := { obj := some { existing with status := desired.status } } } := by
  have hg : storeGet env.refetchErr st = Except.ok existing := storeGet_ok _ _ _ h1 h2
  simp only [updateStatus, hg, if_neg hne, hw]

lemma updateStatus_write_fail_eq (env : Env) (st : StoreState)
    (existing desired : InferenceService) (e : String)
    (h1 : env.refetchErr = none) (h2 : st.obj = some existing)
    (hne : ¬ existing.status = desired.status) (hw : env.writeErr = some e) :
    updateStatus env st desired =
      { err := some (wrapf e "fails to update InferenceService status")
        events := [updateFailedEvent desired.name e]
        writes := [desired]
        store := st } := by
  have hg : storeGet env.refetchErr st = Except.ok existing := storeGet_ok _ _ _ h1 h2
  simp only [updateStatus, hg, if_neg hne, hw]

/-! Concrete fixtures used by witnesses and counterexamples -/

/-- A status with no conditions. -/
def emptyStatus : InferenceServiceStatus := { conditions := none, componentState := "" }

/-- A status whose Ready condition is true. -/
def readyStatus : InferenceServiceStatus :=
  { conditions := some [{ condType := "Ready", status := ConditionStatus.conditionTrue }]
    componentState := "" }

/-- A status whose Ready condition is unknown. -/
def unknownStatus : InferenceServiceStatus :=
  { conditions := some [{ condType := "Ready", status := ConditionStatus.conditionUnknown }]
    componentState := "" }

/-- A spec requesting neither transformer nor explainer. -/
def plainSpec : InferenceServiceSpec :=
  { predictorParams := "p", transformer := none, explainer := none }

/-- A spec requesting both transformer and explainer. -/
def teSpec : InferenceServiceSpec :=
  { predictorParams := "p", transformer := some "t", explainer := some "x" }

/-- An object requesting only the predictor. -/
def isvcPlain : InferenceService :=
  { name := "svc", nspace := "ns", spec := plainSpec, status := emptyStatus }

/-- An object requesting predictor, transformer and explainer. -/
def isvcTE : InferenceService :=
  { name := "svc", nspace := "ns", spec := teSpec, status := emptyStatus }

/-- An environment where every collaborator succeeds and reconcilers leave
the object unchanged. -/
def allOkEnv : Env :=
  { fetchErr := none
    servicesCfgErr := none
    comp := fun _ o => Except.ok o
    ingressCfgErr := none
    ingress := fun o => Except.ok o
    refetchErr := none
    writeErr := none }

/-- An environment whose component reconcilers set the Ready-true status. -/
def setReadyEnv : Env :=
  { allOkEnv with comp := fun _ o => Except.ok { o with status := readyStatus } }

/-- An environment where the transformer reconciler fails. -/
def envTransformerFails : Env :=
  { allOkEnv with
    comp := fun c o =>
      match c with
      | Component.transformer => Except.error "boom"
      | _ => Except.ok o }

/-- An environment where the predictor reconciler fails. -/
def envPredictorFails : Env :=
  { allOkEnv with
    comp := fun c o =>
      match c with
      | Component.predictor => Except.error "boom"
      | _ => Except.ok o }

/-- An environment where only the ingress reconciler fails. -/
def envIngressFails : Env :=
  { allOkEnv with ingress := fun _ => Except.error "boom" }

/-- An environment where the initial fetch fails with a non-not-found
error. -/
def envFetchFails : Env := { allOkEnv with fetchErr := some "boom" }

/-! Claim theorems -/

/-- C10: on every return path of Reconcile — not-found no-op, fetch error,
config-loading error, component failure, ingress failure, status-commit
failure and full success — the returned result never requests a requeue;
retry is driven solely by the returned error. -/
theorem reconcile_never_requeues (env : Env) (st : StoreState) :
    (Reconcile env st).result = emptyResult := by
  cases h1 : storeGet env.fetchErr st with
  | error se => cases se <;> simp [Reconcile, h1]
  | ok isvc =>
    cases h2 : env.servicesCfgErr with
    | some e => simp [Reconcile, h1, h2]
    | none =>
      cases h3 : (runComponents env (buildReconcilers isvc) isvc).2 with
      | error ce => simp [Reconcile, h1, h2, h3]
      | ok isvc2 =>
        cases h4 : env.ingressCfgErr with
        | some e => simp [Reconcile, h1, h2, h3, h4]
        | none =>
          cases h5 : env.ingress isvc2 with
          | error e => simp [Reconcile, h1, h2, h3, h4, h5]
          | ok isvc3 =>
            cases h6 : (updateStatus env st isvc3).err <;>
              simp [Reconcile, h1, h2, h3, h4, h5, h6]

/-- C7: when the initial fetch reports not-found, Reconcile returns success
with no requeue, no error and zero notifications; when the initial fetch
fails with any other error, Reconcile returns that error unmodified. -/
theorem reconcile_fetch_handling (env : Env) (st : StoreState) :
    (env.fetchErr = none → st.obj = none →
      Reconcile env st =
        { result := emptyResult, err := none, events := [], writes := [],
          invoked := [], ingressInvoked := false, store := st })
    ∧ (∀ e, env.fetchErr = some e →
      Reconcile env st =
        { result := emptyResult, err := some e, events := [], writes := [],
          invoked := [], ingressInvoked := false, store := st }) := by
  constructor
  · intro h1 h2
    have hg : storeGet env.fetchErr st = Except.error StoreErr.notFound := by
      simp [storeGet, h1, h2]
    simp [Reconcile, hg]
  · intro e h1
    have hg : storeGet env.fetchErr st = Except.error (StoreErr.other e) := by
      simp [storeGet, h1]
    simp [Reconcile, hg]

/-- C7 witness: a not-found fetch is a silent no-op, and an injected fetch
error is returned unmodified. -/
theorem reconcile_fetch_handling_witness :
    Reconcile allOkEnv { obj := none }
      = { result := emptyResult, err := none, events := [], writes := [],
          invoked := [], ingressInvoked := false, store := { obj := none } }
    ∧ Reconcile envFetchFails { obj := none }
      = { result := emptyResult, err := some "boom", events := [], writes := [],
          invoked := [], ingressInvoked := false, store := { obj := none } } :=
  ⟨(reconcile_fetch_handling allOkEnv { obj := none }).1 rfl rfl,
   (reconcile_fetch_handling envFetchFails { obj := none }).2 "boom" rfl⟩

/-- C5: the readiness evaluator returns true exactly when the condition
collection is non-empty, a Ready condition is present, and its value is
the true tri-state; a missing collection, a missing Ready condition, or
a non-true value each yield false. -/
theorem readiness_characterisation (s : InferenceServiceStatus) :
    (inferenceServiceReadiness s = true ↔
      ∃ cs c, s.conditions = some cs ∧ cs ≠ []
        ∧ s.getCondition conditionReady = some c
        ∧ c.status = ConditionStatus.conditionTrue)
    ∧ (s.conditions = none → inferenceServiceReadiness s = false)
    ∧ (∀ cs, s.conditions = some cs → (∀ c ∈ cs, ¬ c.condType = conditionReady) →
        inferenceServiceReadiness s = false)
    ∧ (∀ c, s.getCondition conditionReady = some c →
        ¬ c.status = ConditionStatus.conditionTrue →
        inferenceServiceReadiness s = false) := by
  refine ⟨?_, ?_, ?_, ?_⟩
  · cases hcs : s.conditions with
    | none => simp [inferenceServiceReadiness, InferenceServiceStatus.getCondition, hcs]
    | some cs =>
      cases hf : cs.find? (fun c => c.condType == conditionReady) with
      | none => simp [inferenceServiceReadiness, InferenceServiceStatus.getCondition, hcs, hf]
      | some c0 =>
        have hne : cs ≠ [] := by
          intro h
          subst h
          simp at hf
        simp [inferenceServiceReadiness, InferenceServiceStatus.getCondition, hcs, hf, hne]
  · intro h
    simp [inferenceServiceReadiness, InferenceServiceStatus.getCondition, h]
  · intro cs hcs hn
    have hf : cs.find? (fun c => c.condType == conditionReady) = none := by
      apply List.find?_eq_none.mpr
      intro c hc
      simpa using hn c hc
    simp [inferenceServiceReadiness, InferenceServiceStatus.getCondition, hcs, hf]
  · intro c hc hne
    cases hcs : s.conditions with
    | none => simp [inferenceServiceReadiness, InferenceServiceStatus.getCondition, hcs]
    | some cs =>
      have hf : cs.find? (fun x => x.condType == conditionReady) = some c := by
        have := hc
        simpa [InferenceServiceStatus.getCondition, hcs] using this
      simp [inferenceServiceReadiness, InferenceServiceStatus.getCondition, hcs, hf, hne]

/-- C5 witness: a Ready-unknown status is not ready, a Ready-true status is
ready, and a condition-less status is not ready. -/
theorem readiness_characterisation_witness :
    inferenceServiceReadiness unknownStatus = false
    ∧ inferenceServiceReadiness readyStatus = true
    ∧ inferenceServiceReadiness emptyStatus = false :=
  ⟨(readiness_characterisation unknownStatus).2.2.2
      { condType := "Ready", status := ConditionStatus.conditionUnknown } rfl (by decide),
   (readiness_characterisation readyStatus).1.mpr
      ⟨[{ condType := "Ready", status := ConditionStatus.conditionTrue }],
       { condType := "Ready", status := ConditionStatus.conditionTrue },
       rfl, by decide, rfl, rfl⟩,
   (readiness_characterisation emptyStatus).2.1 rfl⟩

lemma runComponents_singleton (env : Env) (c : Component) (o : InferenceService) :
    (runComponents env [c] o).1 = [c] := by
  cases h : env.comp c o <;> simp [runComponents, h]

lemma reconcile_invoked_eq (env : Env) (st : StoreState) (isvc : InferenceService)
    (hfetch : env.fetchErr = none) (hobj : st.obj = some isvc)
    (hcfg : env.servicesCfgErr = none) :
    (Reconcile env st).invoked = (runComponents env (buildReconcilers isvc) isvc).1 := by
  have h1 : storeGet env.fetchErr st = Except.ok isvc := storeGet_ok _ _ _ hfetch hobj
  cases h3 : (runComponents env (buildReconcilers isvc) isvc).2 with
  | error ce => simp [Reconcile, h1, hcfg, h3]
  | ok isvc2 =>
    cases h4 : env.ingressCfgErr with
    | some e => simp [Reconcile, h1, hcfg, h3, h4]
    | none =>
      cases h5 : env.ingress isvc2 with
      | error e => simp [Reconcile, h1, hcfg, h3, h4, h5]
      | ok isvc3 =>
        cases h6 : (updateStatus env st isvc3).err <;>
          simp [Reconcile, h1, hcfg, h3, h4, h5, h6]

/-- C1: for every fetched object, the component reconciler list has the
predictor first, contains a transformer entry exactly when the spec
requests one and an explainer entry exactly when the spec requests one,
in that order; the invoked reconcilers are a prefix of that list in list
order, all of it when every component succeeds, and only the predictor
when neither optional component is requested. -/
theorem reconcile_component_list (env : Env) (st : StoreState) (isvc : InferenceService)
    (hfetch : env.fetchErr = none) (hobj : st.obj = some isvc)
    (hcfg : env.servicesCfgErr = none) :
    buildReconcilers isvc =
      [Component.predictor]
      ++ (if isvc.spec.transformer.isSome then [Component.transformer] else [])
      ++ (if isvc.spec.explainer.isSome then [Component.explainer] else [])
    ∧ (∃ t, (Reconcile env st).invoked ++ t = buildReconcilers isvc)
    ∧ ((∀ c o, ∃ r, env.comp c o = Except.ok r) →
        (Reconcile env st).invoked = buildReconcilers isvc)
    ∧ (isvc.spec.transformer = none → isvc.spec.explainer = none →
        (Reconcile env st).invoked = [Component.predictor]) := by
  have hinv := reconcile_invoked_eq env st isvc hfetch hobj hcfg
  refine ⟨buildReconcilers_shape isvc, ?_, ?_, ?_⟩
  · rw [hinv]
    exact runComponents_invoked_take env (buildReconcilers isvc) isvc
  · intro hok
    rw [hinv]
    exact (runComponents_all_ok env hok (buildReconcilers isvc) isvc).1
  · intro ht he
    have hb : buildReconcilers isvc = [Component.predictor] := by
      simp [buildReconcilers_shape isvc, ht, he]
    rw [hinv, hb]
    exact runComponents_singleton env Component.predictor isvc

/-- C1 witness: with both optional components requested and every component
succeeding, the predictor, transformer and explainer are invoked in that
order; with neither requested, only the predictor is invoked. -/
theorem reconcile_component_list_witness :
    (Reconcile allOkEnv { obj := some isvcTE }).invoked
      = [Component.predictor, Component.transformer, Component.explainer]
    ∧ (Reconcile allOkEnv { obj := some isvcPlain }).invoked = [Component.predictor] := by
  constructor
  · have h := (reconcile_component_list allOkEnv { obj := some isvcTE } isvcTE
      rfl rfl rfl).2.2.1 (fun _ o => ⟨o, rfl⟩)
    rw [h]
    rfl
  · exact (reconcile_component_list allOkEnv { obj := some isvcPlain } isvcPlain
      rfl rfl rfl).2.2.2 rfl rfl

/-- C2 counterexample: a failing transformer and a failing predictor produce
the very same returned error string, so the returned failure is not
wrapped with the identity of the failing component. -/
theorem reconcile_component_wrap_lacks_identity :
    (Reconcile envTransformerFails { obj := some isvcTE }).err
      = some "fails to reconcile component: boom"
    ∧ (Reconcile envPredictorFails { obj := some isvcTE }).err
      = some "fails to reconcile component: boom"
    ∧ (runComponents envTransformerFails (buildReconcilers isvcTE) isvcTE).2
      = Except.error (Component.transformer, "boom")
    ∧ (runComponents envPredictorFails (buildReconcilers isvcTE) isvcTE).2
      = Except.error (Component.predictor, "boom")
    ∧ (Reconcile envTransformerFails { obj := some isvcTE }).err
      = (Reconcile envPredictorFails { obj := some isvcTE }).err :=
  ⟨rfl, rfl, rfl, rfl, rfl⟩

/-- C2 (amended): when a component reconciler fails, Reconcile invokes no
later component (the failing component is the last invoked, within the
built list order), does not invoke the ingress reconciler, emits exactly
one warning-level notification referencing the object, attempts no
status write, and returns the failure wrapped with a fixed
component-failure context that does not name the failing component. -/
theorem reconcile_component_failure (env : Env) (st : StoreState) (isvc : InferenceService)
    (c : Component) (e : String)
    (hfetch : env.fetchErr = none) (hobj : st.obj = some isvc)
    (hcfg : env.servicesCfgErr = none)
    (hrun : (runComponents env (buildReconcilers isvc) isvc).2 = Except.error (c, e)) :
    (∃ pre, (Reconcile env st).invoked = pre ++ [c])
    ∧ (∃ t, (Reconcile env st).invoked ++ t = buildReconcilers isvc)
    ∧ (Reconcile env st).ingressInvoked = false
    ∧ (Reconcile env st).writes = []
    ∧ (Reconcile env st).events = [internalErrorEvent isvc.name e]
    ∧ (internalErrorEvent isvc.name e).eventType = EventType.warning
    ∧ (internalErrorEvent isvc.name e).objName = isvc.name
    ∧ (Reconcile env st).err = some (wrapf e "fails to reconcile component")
    ∧ (Reconcile env st).store = st := by
  have hpair : runComponents env (buildReconcilers isvc) isvc
      = ((runComponents env (buildReconcilers isvc) isvc).1, Except.error (c, e)) :=
    Prod.ext_iff.mpr ⟨rfl, hrun⟩
  have heq := reconcile_comp_fail_eq env st isvc
    (runComponents env (buildReconcilers isvc) isvc).1 c e hfetch hobj hcfg hpair
  refine ⟨?_, ?_, ?_, ?_, ?_, rfl, rfl, ?_, ?_⟩
  · rw [heq]
    exact runComponents_error_last env (buildReconcilers isvc) isvc c e hrun
  · rw [heq]
    exact runComponents_invoked_take env (buildReconcilers isvc) isvc
  · rw [heq]
  · rw [heq]
  · rw [heq]
  · rw [heq]
  · rw [heq]

/-- C2 witness: the failing transformer aborts the pass after predictor and
transformer, with one warning event, no write, and the fixed wrapped
error. -/
theorem reconcile_component_failure_witness :
    (∃ pre, (Reconcile envTransformerFails { obj := some isvcTE }).invoked
      = pre ++ [Component.transformer])
    ∧ (∃ t, (Reconcile envTransformerFails { obj := some isvcTE }).invoked ++ t
      = buildReconcilers isvcTE)
    ∧ (Reconcile envTransformerFails { obj := some isvcTE }).ingressInvoked = false
    ∧ (Reconcile envTransformerFails { obj := some isvcTE }).writes = []
    ∧ (Reconcile envTransformerFails { obj := some isvcTE }).events
      = [internalErrorEvent isvcTE.name "boom"]
    ∧ (internalErrorEvent isvcTE.name "boom").eventType = EventType.warning
    ∧ (internalErrorEvent isvcTE.name "boom").objName = isvcTE.name
    ∧ (Reconcile envTransformerFails { obj := some isvcTE }).err
      = some (wrapf "boom" "fails to reconcile component")
    ∧ (Reconcile envTransformerFails { obj := some isvcTE }).store = { obj := some isvcTE } :=
  reconcile_component_failure envTransformerFails { obj := some isvcTE } isvcTE
    Component.transformer "boom" rfl rfl rfl rfl

/-- C6 counterexample: with every component succeeding and the ingress
reconciler failing, Reconcile returns the wrapped failure without a
status commit, but the emitted event list is empty: no warning-level
notification accompanies an ingress failure. -/
theorem reconcile_ingress_failure_counterexample :
    (Reconcile envIngressFails { obj := some isvcPlain }).err
      = some "fails to reconcile ingress: boom"
    ∧ (Reconcile envIngressFails { obj := some isvcPlain }).events = []
    ∧ (Reconcile envIngressFails { obj := some isvcPlain }).writes = [] :=
  ⟨rfl, rfl, rfl⟩

/-- C6 (amended): when all component reconcilers succeed and the ingress
reconciler fails, Reconcile wraps and returns the failure without
attempting a status commit, leaving the store untouched; unlike a
component failure, no warning-level notification is emitted. -/
theorem reconcile_ingress_failure (env : Env) (st : StoreState) (isvc : InferenceService)
    (inv : List Component) (d1 : InferenceService) (e : String)
    (hfetch : env.fetchErr = none) (hobj : st.obj = some isvc)
    (hcfg : env.servicesCfgErr = none)
    (hrun : runComponents env (buildReconcilers isvc) isvc = (inv, Except.ok d1))
    (hicfg : env.ingressCfgErr = none)
    (hing : env.ingress d1 = Except.error e) :
    (Reconcile env st).err = some (wrapf e "fails to reconcile ingress")
    ∧ (Reconcile env st).writes = []
    ∧ (Reconcile env st).events = []
    ∧ (Reconcile env st).store = st
    ∧ (Reconcile env st).ingressInvoked = true := by
  have heq := reconcile_ingress_fail_eq env st isvc inv d1 e hfetch hobj hcfg hrun hicfg hing
  rw [heq]
  exact ⟨rfl, rfl, rfl, rfl, rfl⟩

/-- C6 witness: the ingress failure scenario at a concrete object. -/
theorem reconcile_ingress_failure_witness :
    (Reconcile envIngressFails { obj := some isvcTE }).err
      = some (wrapf "boom" "fails to reconcile ingress")
    ∧ (Reconcile envIngressFails { obj := some isvcTE }).writes = []
    ∧ (Reconcile envIngressFails { obj := some isvcTE }).events = []
    ∧ (Reconcile envIngressFails { obj := some isvcTE }).store = { obj := some isvcTE }
    ∧ (Reconcile envIngressFails { obj := some isvcTE }).ingressInvoked = true :=
  reconcile_ingress_failure envIngressFails { obj := some isvcTE } isvcTE
    [Component.predictor, Component.transformer, Component.explainer] isvcTE "boom"
    rfl rfl rfl rfl rfl rfl

/-- An environment where the status-commit re-fetch fails. -/
def envRefetchFails : Env := { allOkEnv with refetchErr := some "boom" }

/-- C8: the status commit re-fetches the object fresh; when the re-fetch
fails, the error is propagated as the pass failure, no store write is
attempted, and the outcome is the same for every in-memory desired copy,
so the stale copy is never used as a comparison fallback. -/
theorem updateStatus_refetch_failure (env : Env) (st : StoreState) :
    (∀ e, env.refetchErr = some e → ∀ desired,
      updateStatus env st desired
        = { err := some e, events := [], writes := [], store := st })
    ∧ (env.refetchErr = none → st.obj = none → ∀ desired,
      updateStatus env st desired
        = { err := some StoreErr.notFound.message, events := [], writes := [], store := st })
    ∧ (∀ isvc d1 d2 inv e,
        env.fetchErr = none → st.obj = some isvc → env.servicesCfgErr = none →
        env.ingressCfgErr = none →
        runComponents env (buildReconcilers isvc) isvc = (inv, Except.ok d1) →
        env.ingress d1 = Except.ok d2 →
        env.refetchErr = some e →
        (Reconcile env st).err = some e ∧ (Reconcile env st).writes = []) := by
  refine ⟨?_, ?_, ?_⟩
  · intro e he desired
    have hg : storeGet env.refetchErr st = Except.error (StoreErr.other e) := by
      simp [storeGet, he]
    simp [updateStatus, hg, StoreErr.message]
  · intro h1 h2 desired
    have hg : storeGet env.refetchErr st = Except.error StoreErr.notFound := by
      simp [storeGet, h1, h2]
    simp [updateStatus, hg]
  · intro isvc d1 d2 inv e hfetch hobj hcfg hicfg hrun hing he
    have core := reconcile_success_core env st isvc d1 d2 inv hfetch hobj hcfg hicfg hrun hing
    have hg : storeGet env.refetchErr st = Except.error (StoreErr.other e) := by
      simp [storeGet, he]
    have hup : updateStatus env st d2
        = { err := some e, events := [], writes := [], store := st } := by
      simp [updateStatus, hg, StoreErr.message]
    refine ⟨?_, ?_⟩
    · rw [core.1, hup]
    · rw [core.2.1, hup]

/-- C8 witness: a failing re-fetch propagates its error for any desired
copy, and the whole pass fails with that error and zero writes. -/
theorem updateStatus_refetch_failure_witness :
    updateStatus envRefetchFails { obj := some isvcPlain } isvcTE
      = { err := some "boom", events := [], writes := [], store := { obj := some isvcPlain } }
    ∧ (Reconcile envRefetchFails { obj := some isvcPlain }).err = some "boom"
    ∧ (Reconcile envRefetchFails { obj := some isvcPlain }).writes = [] := by
  refine ⟨(updateStatus_refetch_failure envRefetchFails { obj := some isvcPlain }).1
    "boom" rfl isvcTE, ?_⟩
  have h := (updateStatus_refetch_failure envRefetchFails { obj := some isvcPlain }).2.2
    isvcPlain isvcPlain isvcPlain [Component.predictor] "boom" rfl rfl rfl rfl rfl rfl rfl
  exact h

/-- An environment whose components set the Ready-true status and whose
status write fails. -/
def envWriteFails : Env := { setReadyEnv with writeErr := some "boom" }

/-- C9: when the re-fetched and desired statuses differ and the store
status write fails, the status commit emits one warning notification
whose message cites the object name and the underlying cause, returns
the wrapped error, emits no readiness-transition notification, and when
the pass reaches the status commit that wrapped error is the pass
failure. -/
theorem updateStatus_write_failure (env : Env) (st : StoreState)
    (existing desired : InferenceService) (e : String)
    (h1 : env.refetchErr = none) (h2 : st.obj = some existing)
    (hne : ¬ existing.status = desired.status) (hw : env.writeErr = some e) :
    (updateStatus env st desired).err
      = some (wrapf e "fails to update InferenceService status")
    ∧ (updateStatus env st desired).events = [updateFailedEvent desired.name e]
    ∧ (updateFailedEvent desired.name e).eventType = EventType.warning
    ∧ (∃ s1 s2, (updateFailedEvent desired.name e).message = s1 ++ desired.name ++ s2 ++ e)
    ∧ (updateStatus env st desired).events.filter
        (fun ev => ev.reason == inferenceServiceNotReadyState
          || ev.reason == inferenceServiceReadyState) = []
    ∧ (updateStatus env st desired).store = st
    ∧ (∀ isvc d1 inv,
        env.fetchErr = none → env.servicesCfgErr = none → env.ingressCfgErr = none →
        runComponents env (buildReconcilers isvc) isvc = (inv, Except.ok d1) →
        env.ingress d1 = Except.ok desired →
        st.obj = some isvc →
        (Reconcile env st).err
          = some (wrapf e "fails to update InferenceService status")) := by
  have heq := updateStatus_write_fail_eq env st existing desired e h1 h2 hne hw
  refine ⟨?_, ?_, rfl, ⟨"Failed to update status for InferenceService \"", "\": ", rfl⟩,
    ?_, ?_, ?_⟩
  · rw [heq]
  · rw [heq]
  · rw [heq]
    simp [updateFailedEvent, inferenceServiceNotReadyState, inferenceServiceReadyState]
  · rw [heq]
  · intro isvc d1 inv hfetch hcfg hicfg hrun hing hobj
    have core := reconcile_success_core env st isvc d1 desired inv hfetch hobj hcfg hicfg hrun hing
    rw [core.1, heq]

/-- C9 witness: the write-failure scenario at a concrete object whose
desired status became Ready. -/
theorem updateStatus_write_failure_witness :
    (updateStatus envWriteFails { obj := some isvcPlain } { isvcPlain with status := readyStatus }).err
      = some (wrapf "boom" "fails to update InferenceService status")
    ∧ (updateStatus envWriteFails { obj := some isvcPlain }
        { isvcPlain with status := readyStatus }).events
      = [updateFailedEvent { isvcPlain with status := readyStatus }.name "boom"]
    ∧ (updateFailedEvent { isvcPlain with status := readyStatus }.name "boom").eventType
      = EventType.warning
    ∧ (∃ s1 s2, (updateFailedEvent { isvcPlain with status := readyStatus }.name "boom").message
      = s1 ++ { isvcPlain with status := readyStatus }.name ++ s2 ++ "boom")
    ∧ (updateStatus envWriteFails { obj := some isvcPlain }
        { isvcPlain with status := readyStatus }).events.filter
        (fun ev => ev.reason == inferenceServiceNotReadyState
          || ev.reason == inferenceServiceReadyState) = []
    ∧ (updateStatus envWriteFails { obj := some isvcPlain }
        { isvcPlain with status := readyStatus }).store = { obj := some isvcPlain }
    ∧ (∀ isvc d1 inv,
        envWriteFails.fetchErr = none → envWriteFails.servicesCfgErr = none →
        envWriteFails.ingressCfgErr = none →
        runComponents envWriteFails (buildReconcilers isvc) isvc = (inv, Except.ok d1) →
        envWriteFails.ingress d1 = Except.ok { isvcPlain with status := readyStatus } →
        StoreState.obj { obj := some isvcPlain } = some isvc →
        (Reconcile envWriteFails { obj := some isvcPlain }).err
          = some (wrapf "boom" "fails to update InferenceService status")) :=
  updateStatus_write_failure envWriteFails { obj := some isvcPlain } isvcPlain
    { isvcPlain with status := readyStatus } "boom" rfl rfl (by decide) rfl

/-- C4: after the status commit, with wasReady the readiness of the
re-fetched existing status and isReady the readiness of the desired
status: on a successful write the emitted notification is exactly the
warning-level no-longer-ready event when wasReady flips to not ready,
exactly the normal-level now-ready event when it flips to ready, and
nothing otherwise; when the write was skipped no event at all is
emitted; when the write failed no readiness event is emitted. -/
theorem updateStatus_readiness_notifications (env : Env) (st : StoreState)
    (existing desired : InferenceService)
    (h1 : env.refetchErr = none) (h2 : st.obj = some existing) :
    (¬ existing.status = desired.status → env.writeErr = none →
      (updateStatus env st desired).events =
        (if inferenceServiceReadiness existing.status &&
            !(inferenceServiceReadiness desired.status) then
          [notReadyEvent desired.name]
        else if !(inferenceServiceReadiness existing.status) &&
            inferenceServiceReadiness desired.status then
          [readyEvent desired.name]
        else []))
    ∧ (existing.status = desired.status → (updateStatus env st desired).events = [])
    ∧ (∀ e, env.writeErr = some e →
        (updateStatus env st desired).events.filter
          (fun ev => ev.reason == inferenceServiceNotReadyState
            || ev.reason == inferenceServiceReadyState) = [])
    ∧ (notReadyEvent desired.name).eventType = EventType.warning
    ∧ (readyEvent desired.name).eventType = EventType.normal := by
  refine ⟨?_, ?_, ?_, rfl, rfl⟩
  · intro hne hw
    rw [updateStatus_write_ok_eq env st existing desired h1 h2 hne hw]
  · intro heq
    rw [updateStatus_skip_eq env st existing desired h1 h2 heq]
  · intro e hw
    by_cases heq : existing.status = desired.status
    · rw [updateStatus_skip_eq env st existing desired h1 h2 heq]
      rfl
    · rw [updateStatus_write_fail_eq env st existing desired e h1 h2 heq hw]
      simp [updateFailedEvent, inferenceServiceNotReadyState, inferenceServiceReadyState]

/-- C4 witness: a pass flipping the object from not ready to ready emits
exactly the normal-level now-ready event. -/
theorem updateStatus_readiness_notifications_witness :
    (updateStatus setReadyEnv { obj := some isvcPlain }
      { isvcPlain with status := readyStatus }).events
      = [readyEvent { isvcPlain with status := readyStatus }.name] := by
  have h := (updateStatus_readiness_notifications setReadyEnv { obj := some isvcPlain }
    isvcPlain { isvcPlain with status := readyStatus } rfl rfl).1 (by decide) rfl
  rw [h]
  rfl

/-- C3: when the re-fetched existing status and the in-memory desired
status are structurally equal the status commit performs no store write
at all; consequently, two successive Reconcile passes against the same
environment — no state change between the calls, component outcomes
depending only on the object spec and identity, and every sub-reconciler
succeeding — perform zero store writes on the second pass. -/
theorem updateStatus_idempotent :
    (∀ (env : Env) (st : StoreState) (existing desired : InferenceService),
      env.refetchErr = none → st.obj = some existing →
      existing.status = desired.status →
      (updateStatus env st desired).writes = []
      ∧ (updateStatus env st desired).store = st
      ∧ (updateStatus env st desired).err = none)
    ∧ (∀ (env : Env) (st : StoreState) (o : InferenceService),
      st.obj = some o →
      env.fetchErr = none → env.servicesCfgErr = none → env.ingressCfgErr = none →
      env.refetchErr = none → env.writeErr = none →
      (∀ c a b, a.spec = b.spec → a.name = b.name → a.nspace = b.nspace →
        env.comp c a = env.comp c b) →
      (∀ c a, ∃ r, env.comp c a = Except.ok r) →
      (∀ a, ∃ r, env.ingress a = Except.ok r) →
      (Reconcile env (Reconcile env st).store).writes = []) := by
  constructor
  · intro env st existing desired h1 h2 heq
    rw [updateStatus_skip_eq env st existing desired h1 h2 heq]
    exact ⟨rfl, rfl, rfl⟩
  · intro env st o hobj hfetch hcfg hicfg hrefetch hwrite hdet hcomp hing
    obtain ⟨hinv, d1, hd1⟩ := runComponents_all_ok env hcomp (buildReconcilers o) o
    have hrunEq : runComponents env (buildReconcilers o) o
        = (buildReconcilers o, Except.ok d1) := Prod.ext_iff.mpr ⟨hinv, hd1⟩
    obtain ⟨d2, hd2⟩ := hing d1
    have core1 := reconcile_success_core env st o d1 d2 (buildReconcilers o)
      hfetch hobj hcfg hicfg hrunEq hd2
    by_cases heq : o.status = d2.status
    · have hup := updateStatus_skip_eq env st o d2 hrefetch hobj heq
      have hst1 : (Reconcile env st).store = st := by
        rw [core1.2.2.1, hup]
      rw [hst1, core1.2.1, hup]
    · have hup := updateStatus_write_ok_eq env st o d2 hrefetch hobj heq hwrite
      have hst1 : (Reconcile env st).store
          = { obj := some { o with status := d2.status } } := by
        rw [core1.2.2.1, hup]
      obtain ⟨rest, hcons⟩ := buildReconcilers_cons o
      have hrun2 : runComponents env (buildReconcilers { o with status := d2.status })
          { o with status := d2.status } = (buildReconcilers o, Except.ok d1) := by
        rw [buildReconcilers_congr { o with status := d2.status } o rfl]
        calc runComponents env (buildReconcilers o) { o with status := d2.status }
            = runComponents env (buildReconcilers o) o := by
              rw [hcons]
              exact runComponents_congr env hdet Component.predictor rest
                { o with status := d2.status } o rfl rfl rfl
          _ = (buildReconcilers o, Except.ok d1) := hrunEq
      have core2 := reconcile_success_core env { obj := some { o with status := d2.status } }
        { o with status := d2.status } d1 d2 (buildReconcilers o)
        hfetch rfl hcfg hicfg hrun2 hd2
      have hup2 := updateStatus_skip_eq env { obj := some { o with status := d2.status } }
        { o with status := d2.status } d2 hrefetch rfl rfl
      rw [hst1, core2.2.1, hup2]

/-- C3 witness: with equal statuses the commit is skipped, and the second of
two successive passes with status-setting components performs zero
writes. -/
theorem updateStatus_idempotent_witness :
    ((updateStatus allOkEnv { obj := some isvcPlain } isvcPlain).writes = []
      ∧ (updateStatus allOkEnv { obj := some isvcPlain } isvcPlain).store
        = { obj := some isvcPlain }
      ∧ (updateStatus allOkEnv { obj := some isvcPlain } isvcPlain).err = none)
    ∧ (Reconcile setReadyEnv (Reconcile setReadyEnv { obj := some isvcPlain }).store).writes
      = [] := by
  constructor
  · exact updateStatus_idempotent.1 allOkEnv { obj := some isvcPlain } isvcPlain isvcPlain
      rfl rfl rfl
  · refine updateStatus_idempotent.2 setReadyEnv { obj := some isvcPlain } isvcPlain
      rfl rfl rfl rfl rfl rfl ?_ ?_ ?_
    · intro c a b hs hn hns
      cases a
      cases b
      simp_all [setReadyEnv, allOkEnv]
    · intro c a
      exact ⟨{ a with status := readyStatus }, rfl⟩
    · intro a
      exact ⟨a, rfl⟩

end KFServing
